import Mathlib

/-!
# Verification of the DeepConsent consent-assistant app (`app.py`)

A shallow embedding of the program's core: the PDF exporter (`save_as_pdf`),
the session history list (`st.session_state.history`), the three button
handlers (generate / analyze / insights) with their completion requests, and
the tab-2 upload decoding step.  Machine-level facts (the reportlab byte
encoder) are modelled where noted; everything else is translated directly
from `app.py`.
-/

namespace DeepConsent

/-- One record of `st.session_state.history`: the dict
`{"timestamp": ..., "response": ...}` appended after each successful call. -/
structure InteractionRecord where
  timestamp : String
  response : String
deriving DecidableEq, Repr

/-- A single `c.drawString(x, y, text)` operation on the reportlab canvas. -/
structure DrawOp where
  x : Int
  y : Int
  text : String
deriving DecidableEq, Repr

/-- Result of `save_as_pdf`: the timestamped filename and the pages of the
produced document, each page being its list of draw operations. -/
structure PdfOutput where
  filename : String
  pages : List (List DrawOp)
deriving DecidableEq, Repr

/-- Helper for `splitLines`: `cur` holds the characters of the current line,
in reverse. -/
def splitLinesAux (cur : List Char) : List Char → List String
  | [] => [String.mk cur.reverse]
  | c :: cs =>
    if c = '\n' then String.mk cur.reverse :: splitLinesAux [] cs
    else splitLinesAux (c :: cur) cs

/-- Python's `text.split("\n")`: the segments between newline characters, so
`""` gives `[""]`, and a trailing newline contributes a final empty segment. -/
def splitLines (text : String) : List String :=
  splitLinesAux [] text.data

/-- Python's `line[:90]`: the first 90 characters of the line. -/
def truncate90 (line : String) : String :=
  String.mk (line.data.take 90)

/-- The draw operations issued by the loop in `save_as_pdf`:
`y_position = 750`, then for each line of `text.split("\n")`,
`c.drawString(100, y_position, line[:90])` and `y_position -= 20`.
Indexing via `List.enum` makes the running cursor explicit. -/
def drawOps (text : String) : List DrawOp :=
  ((splitLines text).enum).map (fun p => ⟨100, 750 - 20 * (p.1 : Int), truncate90 p.2⟩)

/-- Embedding of `save_as_pdf(text, filename)`.  The canvas never calls
`showPage`, so `c.save()` emits exactly the one current page holding every
draw operation.  `now` stands for
`datetime.datetime.now().strftime('%Y%m%d_%H%M%S')`. -/
def save_as_pdf (text : String) (filename : String) (now : String) : PdfOutput :=
  { filename := filename ++ "_" ++ now ++ ".pdf",
    pages := [drawOps text] }

/-- Embedding of `st.session_state.history.append(record)`: a plain Python
`list.append`, with no check on the record. -/
def historyAppend (history : List InteractionRecord) (r : InteractionRecord) :
    List InteractionRecord :=
  history ++ [r]

/-- The whole mutable session state of the app: just the history list
(initialised to `[]` on first run). -/
structure AppState where
  history : List InteractionRecord
deriving DecidableEq, Repr

/-- `listAll` of the Session History Store: the history display loop iterates
the list in stored order. -/
def listAll (s : AppState) : List InteractionRecord := s.history

/-- The sidebar language choices. -/
def languages : List String := ["English", "Spanish", "French", "German", "Chinese"]

/-- The sidebar compliance choices. -/
def complianceOptions : List String := ["GDPR", "HIPAA", "CCPA", "None"]

/-- The sidebar template choices. -/
def templateOptions : List String :=
  ["Medical Research", "Data Sharing", "Legal Agreement", "Custom"]

/-- One `{role, content}` message of a completion request. -/
structure Message where
  role : String
  content : String
deriving DecidableEq, Repr

/-- The arguments passed to `client.chat.completions.create`. -/
structure CompletionRequest where
  model : String
  messages : List Message
  temperature : ℚ
  max_tokens : Nat
deriving DecidableEq, Repr

/-- The system message of the generate workflow (the f-string at line 56). -/
def generateSystemMessage (language compliance : String) : String :=
  "You are a legal AI assistant. Generate a consent agreement in " ++ language ++
    ", ensuring compliance with " ++ compliance ++ "."

/-- The completion request issued by the "Generate Consent Agreement" button. -/
def generateRequest (language compliance user_prompt : String) : CompletionRequest :=
  { model := "deepseek/deepseek-r1",
    messages := [⟨"system", generateSystemMessage language compliance⟩,
                 ⟨"user", user_prompt⟩],
    temperature := 7/10,
    max_tokens := 1024 }

/-- The analysis prompt built from the extracted text (the triple-quoted
f-string at lines 92–99, with its source indentation). -/
def analysisPrompt (extracted_text : String) : String :=
  "\n                    Analyze the following document and provide:\n                    1. A summary of the document.\n                    2. Key legal risks and compliance issues.\n                    3. Recommendations for improvements.\n                    Document:\n                    " ++ extracted_text ++ "\n                    "

/-- The completion request issued by the "Analyze Document" button. -/
def analyzeRequest (extracted_text : String) : CompletionRequest :=
  { model := "deepseek/deepseek-chat",
    messages := [⟨"system", "You are an AI-powered document analysis assistant."⟩,
                 ⟨"user", analysisPrompt extracted_text⟩],
    temperature := 7/10,
    max_tokens := 1024 }

/-- The insights prompt built from the extracted text (lines 131–136). -/
def insightsPrompt (extracted_text : String) : String :=
  "\n                    Explain this document in simple terms for someone unfamiliar with legal language.\n                    Provide an easy-to-understand summary and its key implications.\n                    Document:\n                    " ++ extracted_text ++ "\n                    "

/-- The completion request issued by the "DeepSeek Insights" button. -/
def insightsRequest (extracted_text : String) : CompletionRequest :=
  { model := "deepseek/deepseek-r1",
    messages := [⟨"system", "You are an AI assistant simplifying legal documents."⟩,
                 ⟨"user", insightsPrompt extracted_text⟩],
    temperature := 7/10,
    max_tokens := 1024 }

/-- What one button press shows and offers: the success banner, the displayed
response text, an error banner, the text-download payload, and the PDF export. -/
structure HandlerOutput where
  successMessage : Option String
  displayedText : Option String
  errorMessage : Option String
  textDownload : Option String
  pdfExport : Option PdfOutput
deriving DecidableEq, Repr

/-- The output of a handler run that hit the `except` branch. -/
def errorOutput (e : String) : HandlerOutput :=
  { successMessage := none, displayedText := none,
    errorMessage := some ("❌ Error: " ++ e),
    textDownload := none, pdfExport := none }

/-- Embedding of the tab-1 "Generate Consent Agreement" handler (lines 50–78).
`completionResult` is the outcome of the remote call: `Except.error e` models
the call raising with message `str(e)`; on success the response is displayed,
appended to the history, and exported as text and PDF; on failure the
`except` branch only shows the error banner. -/
def generateHandler (s : AppState) (completionResult : Except String String)
    (now : String) : AppState × HandlerOutput :=
  match completionResult with
  | .ok response =>
      ({ history := historyAppend s.history ⟨now, response⟩ },
       { successMessage := some "✅ Consent Agreement Generated Successfully!",
         displayedText := some response,
         errorMessage := none,
         textDownload := some response,
         pdfExport := some (save_as_pdf response "consent_agreement" now) })
  | .error e => (s, errorOutput e)

/-- Embedding of the tab-2 "Analyze Document" handler (lines 89–125). -/
def analyzeHandler (s : AppState) (completionResult : Except String String)
    (now : String) : AppState × HandlerOutput :=
  match completionResult with
  | .ok response =>
      ({ history := historyAppend s.history ⟨now, response⟩ },
       { successMessage := some "✅ Document Analysis Complete!",
         displayedText := some response,
         errorMessage := none,
         textDownload := some response,
         pdfExport := some (save_as_pdf response "document_analysis" now) })
  | .error e => (s, errorOutput e)

/-- Embedding of the tab-2 "DeepSeek Insights" handler (lines 128–154): same
shape but with no download buttons. -/
def insightsHandler (s : AppState) (completionResult : Except String String)
    (now : String) : AppState × HandlerOutput :=
  match completionResult with
  | .ok response =>
      ({ history := historyAppend s.history ⟨now, response⟩ },
       { successMessage := some "✅ Insights Generated!",
         displayedText := some response,
         errorMessage := none,
         textDownload := none,
         pdfExport := none })
  | .error e => (s, errorOutput e)

/-- Is `b` a UTF-8 continuation byte `0x80..0xBF`? -/
def isCont (b : Nat) : Bool := 0x80 ≤ b && b ≤ 0xBF

/-- UTF-8 decoding of a byte list to its code points, as performed by Python's
`bytes.decode("utf-8")` at line 86: `none` models a raised
`UnicodeDecodeError` (overlong forms, surrogates and out-of-range values are
rejected, per RFC 3629). -/
def utf8Decode : List Nat → Option (List Char)
  | [] => some []
  | b :: bs =>
    if b ≤ 0x7F then (utf8Decode bs).map (Char.ofNat b :: ·)
    else if 0xC2 ≤ b && b ≤ 0xDF then
      match bs with
      | b1 :: rest =>
        if isCont b1 then
          (utf8Decode rest).map (Char.ofNat ((b - 0xC0) * 0x40 + (b1 - 0x80)) :: ·)
        else none
      | [] => none
    else if 0xE0 ≤ b && b ≤ 0xEF then
      match bs with
      | b1 :: b2 :: rest =>
        if (if b = 0xE0 then 0xA0 ≤ b1 && b1 ≤ 0xBF
            else if b = 0xED then 0x80 ≤ b1 && b1 ≤ 0x9F
            else isCont b1) && isCont b2 then
          (utf8Decode rest).map
            (Char.ofNat (((b - 0xE0) * 0x40 + (b1 - 0x80)) * 0x40 + (b2 - 0x80)) :: ·)
        else none
      | _ => none
    else if 0xF0 ≤ b && b ≤ 0xF4 then
      match bs with
      | b1 :: b2 :: b3 :: rest =>
        if (if b = 0xF0 then 0x90 ≤ b1 && b1 ≤ 0xBF
            else if b = 0xF4 then 0x80 ≤ b1 && b1 ≤ 0x8F
            else isCont b1) && isCont b2 && isCont b3 then
          (utf8Decode rest).map
            (Char.ofNat ((((b - 0xF0) * 0x40 + (b1 - 0x80)) * 0x40 + (b2 - 0x80)) * 0x40
              + (b3 - 0x80)) :: ·)
        else none
      | _ => none
    else none

/-- A file handed over by the tab-2 uploader: its name and raw bytes. -/
structure UploadedFile where
  name : String
  bytes : List Nat
deriving DecidableEq, Repr

/-- The uploader accepts files by extension: `type=["pdf", "txt"]`. -/
def acceptedUpload (f : UploadedFile) : Bool :=
  ".pdf".data.isSuffixOf f.name.data || ".txt".data.isSuffixOf f.name.data

/-- Embedding of line 86, `uploaded_file.read().decode("utf-8")`: the decode
sits outside every `try`, so a failure is an uncaught exception. -/
def tab2DecodeStep (f : UploadedFile) : Except String String :=
  match utf8Decode f.bytes with
  | some cs => .ok ⟨cs⟩
  | none => .error "UnicodeDecodeError"

/-- What the user asked for after uploading in tab 2. -/
inductive Tab2Action where
  | none
  | analyze (completionResult : Except String String) (now : String)
  | insights (completionResult : Except String String) (now : String)

/-- The whole tab-2 flow once a file is uploaded (lines 85–154): first the
decode at top level — whose failure propagates uncaught, reaching neither
handler nor the history — then, inside `try`, the requested handler on the
extracted text. -/
def tab2Flow (s : AppState) (f : UploadedFile) (action : Tab2Action) :
    Except String (AppState × HandlerOutput) :=
  match tab2DecodeStep f with
  | .error e => .error e
  | .ok _extracted =>
    match action with
    | .none => .ok (s, errorOutput "" )
    | .analyze res now => .ok (analyzeHandler s res now)
    | .insights res now => .ok (insightsHandler s res now)

/-- Serialization of one draw operation, for the document encoding. -/
def serializeOp (op : DrawOp) : String :=
  "T " ++ toString op.x ++ " " ++ toString op.y ++ " (" ++ op.text ++ ")\n"

/-- Serialization of one page. -/
def serializePage (p : List DrawOp) : String :=
  String.join (p.map serializeOp) ++ "ENDPAGE\n"

/-- Serialization of the page sequence. -/
def serializePages (ps : List (List DrawOp)) : String :=
  String.join (ps.map serializePage)

/-- Modelled from the spec: `encodeAsDocument(pages) -> byte buffer` (§4.3).
The concrete byte encoder is reportlab's PDF writer, which is not part of
this repository's source; the spec requires only a deterministic encoding of
the pages carrying embedded generation-timestamp metadata, so the buffer is
modelled as that metadata followed by a canonical serialization of the pages. -/
def encodeAsDocument (generatedAt : String) (pages : List (List DrawOp)) : String :=
  "%DOC-1.0\n%CreationDate: " ++ generatedAt ++ ("\n" ++ serializePages pages)

/-- The full export of one text: `save_as_pdf` then the (spec-modelled)
document encoding, returning the timestamped filename and the buffer. -/
def exportDocument (text fname now : String) : String × String :=
  let out := save_as_pdf text fname now
  (out.filename, encodeAsDocument now out.pages)

/-- `needle` occurs verbatim inside `haystack`. -/
def containsVerbatim (needle haystack : String) : Prop :=
  ∃ p q, haystack.data = p ++ needle.data ++ q

/-- A 40-line text: more lines than fit above the page's bottom edge
(`750 - 20*39 = -30`). -/
def fortyLineText : String :=
  String.intercalate "\n" (List.replicate 40 "x")

/-- An accepted upload that is a real binary PDF prefix: `%PDF` followed by
byte `0xFF`, which begins no UTF-8 sequence. -/
def binaryPdfUpload : UploadedFile :=
  ⟨"doc.pdf", [0x25, 0x50, 0x44, 0x46, 0xFF]⟩

/-! ## Helper lemmas -/

theorem enumFrom_map_snd_comp {α β : Type} (f : α → β) :
    ∀ (n : Nat) (l : List α), (List.enumFrom n l).map (fun p => f p.2) = l.map f
  | _, [] => rfl
  | n, a :: l =>
    congrArg (fun t => f a :: t) (enumFrom_map_snd_comp f (n + 1) l)

theorem foldl_historyAppend (recs : List InteractionRecord) :
    ∀ (s : AppState),
      (recs.foldl (fun s r => ⟨historyAppend s.history r⟩) s).history
        = s.history ++ recs := by
  induction recs with
  | nil => intro s; simp
  | cons r rest ih =>
    intro s
    rw [List.foldl_cons, ih ⟨historyAppend s.history r⟩]
    simp [historyAppend]

/-! ## Claim theorems -/

/-- Claim C1, behavior of the code at the failing input: `save_as_pdf` never
begins a new page — every text, however long, yields exactly one page — and on
a 40-line text the lines from index 38 onward are drawn at negative
`y_position`, below the page's bottom edge, instead of starting a new page at
the top margin. -/
theorem c1_no_pagination :
    (∀ text fname now, (save_as_pdf text fname now).pages.length = 1) ∧
    (save_as_pdf fortyLineText "consent_agreement" "t").pages.length = 1 ∧
    ∃ op ∈ (save_as_pdf fortyLineText "consent_agreement" "t").pages.flatten,
      op.y < 0 :=
  ⟨fun _ _ _ => rfl, rfl, by decide⟩

/-- Claim C2, counterexample: appending a record with empty responseText is
not a no-op — the plain list append stores it, and the generate handler on a
successful completion whose text is empty likewise appends it, leaving the
history holding a record with empty responseText. -/
theorem c2_empty_append_not_noop :
    historyAppend [] ⟨"2025-01-01 00:00:00", ""⟩ ≠ [] ∧
    (generateHandler ⟨[]⟩ (.ok "") "2025-01-01 00:00:00").1.history
      = [⟨"2025-01-01 00:00:00", ""⟩] ∧
    ∃ r ∈ (generateHandler ⟨[]⟩ (.ok "") "2025-01-01 00:00:00").1.history,
      r.response = "" :=
  ⟨by decide, rfl, by decide⟩

/-- Claim C2 as amended: the store's append is an unconditional Python
`list.append` with no emptiness check — every record, one with empty
responseText included, is stored — and each handler on a successful completion
appends exactly the record built from that completion's text. -/
theorem c2_append_unconditional :
    (∀ h r, historyAppend h r = h ++ [r]) ∧
    (∀ s resp now,
      (generateHandler s (.ok resp) now).1.history = s.history ++ [⟨now, resp⟩]) ∧
    (∀ s resp now,
      (analyzeHandler s (.ok resp) now).1.history = s.history ++ [⟨now, resp⟩]) ∧
    (∀ s resp now,
      (insightsHandler s (.ok resp) now).1.history = s.history ++ [⟨now, resp⟩]) :=
  ⟨fun _ _ => rfl, fun _ _ _ => rfl, fun _ _ _ => rfl, fun _ _ _ => rfl⟩

/-- Claim C3: for every non-empty input text the exporter produces at least
one page, and the lines drawn across its pages are exactly the
newline-separated lines of the original text, each hard-truncated to 90
characters, in original order. -/
theorem c3_lines_reconstructed (text fname now : String) (h : text ≠ "") :
    1 ≤ (save_as_pdf text fname now).pages.length ∧
    (save_as_pdf text fname now).pages.flatten.map DrawOp.text
      = (splitLines text).map truncate90 := by
  refine ⟨by simp [save_as_pdf], ?_⟩
  show (drawOps text ++ []).map DrawOp.text = _
  rw [List.append_nil, drawOps, List.map_map, List.enum]
  exact enumFrom_map_snd_comp truncate90 0 (splitLines text)

/-- Witness for C3 at the spec's own scenario text. -/
theorem c3_lines_reconstructed_witness :
    ("Line A\nLine B" : String) ≠ "" ∧
    (1 ≤ (save_as_pdf "Line A\nLine B" "consent_agreement" "t").pages.length ∧
     (save_as_pdf "Line A\nLine B" "consent_agreement" "t").pages.flatten.map
        DrawOp.text
       = (splitLines "Line A\nLine B").map truncate90) :=
  ⟨by decide, c3_lines_reconstructed "Line A\nLine B" "consent_agreement" "t" (by decide)⟩

/-- Claim C4: when the remote completion call fails with message `e`, each of
the three handlers returns the state unchanged (zero new records) and an
output with no export and no download, whose only message is the single error
banner carrying `e` verbatim. -/
theorem c4_failure_atomic (s : AppState) (e now : String) :
    generateHandler s (.error e) now = (s, errorOutput e) ∧
    analyzeHandler s (.error e) now = (s, errorOutput e) ∧
    insightsHandler s (.error e) now = (s, errorOutput e) ∧
    (errorOutput e).errorMessage = some ("❌ Error: " ++ e) ∧
    (errorOutput e).successMessage = none ∧
    (errorOutput e).pdfExport = none ∧
    (errorOutput e).textDownload = none ∧
    containsVerbatim e ("❌ Error: " ++ e) :=
  ⟨rfl, rfl, rfl, rfl, rfl, rfl, rfl,
    "❌ Error: ".data, [], by simp [String.data_append]⟩

/-- Claim C5: for every sidebar language and compliance regime, the generation
system message embeds both selections verbatim as substrings. -/
theorem c5_prompt_embeds_selections (language compliance : String)
    (hl : language ∈ languages) (hc : compliance ∈ complianceOptions) :
    containsVerbatim language (generateSystemMessage language compliance) ∧
    containsVerbatim compliance (generateSystemMessage language compliance) := by
  constructor
  · exact ⟨"You are a legal AI assistant. Generate a consent agreement in ".data,
      (", ensuring compliance with " ++ compliance ++ ".").data,
      by simp [generateSystemMessage, String.data_append]⟩
  · exact ⟨("You are a legal AI assistant. Generate a consent agreement in "
        ++ language ++ ", ensuring compliance with ").data, ".".data,
      by simp [generateSystemMessage, String.data_append]⟩

/-- Witness for C5 at the default selections. -/
theorem c5_prompt_embeds_selections_witness :
    ("English" ∈ languages ∧ "GDPR" ∈ complianceOptions) ∧
    (containsVerbatim "English" (generateSystemMessage "English" "GDPR") ∧
     containsVerbatim "GDPR" (generateSystemMessage "English" "GDPR")) :=
  ⟨⟨by decide, by decide⟩,
    c5_prompt_embeds_selections "English" "GDPR" (by decide) (by decide)⟩

/-- Claim C6: on empty input the exporter does not fail and yields exactly one
page, every draw operation of which draws the empty string — so the page holds
zero content lines. -/
theorem c6_empty_single_empty_page (fname now : String) :
    (save_as_pdf "" fname now).pages.length = 1 ∧
    ∀ op ∈ (save_as_pdf "" fname now).pages.flatten, op.text = "" := by
  refine ⟨rfl, ?_⟩
  have hp : (save_as_pdf "" fname now).pages.flatten
      = [{ x := 100, y := 750, text := "" }] := rfl
  rw [hp]
  intro op hop
  rw [List.mem_singleton] at hop
  rw [hop]

/-- Claim C7: the export is deterministic up to timestamp metadata — two runs
on the same text and filename produce buffers sharing one identical body and
differing only in the embedded creation-timestamp header and the timestamped
filename. -/
theorem c7_deterministic_up_to_timestamp (text fname t1 t2 : String) :
    (exportDocument text fname t1).1 = fname ++ "_" ++ t1 ++ ".pdf" ∧
    (exportDocument text fname t2).1 = fname ++ "_" ++ t2 ++ ".pdf" ∧
    ∃ body,
      (exportDocument text fname t1).2
        = "%DOC-1.0\n%CreationDate: " ++ t1 ++ ("\n" ++ body) ∧
      (exportDocument text fname t2).2
        = "%DOC-1.0\n%CreationDate: " ++ t2 ++ ("\n" ++ body) :=
  ⟨rfl, rfl, serializePages [drawOps text], rfl, rfl⟩

/-- Claim C8: after N valid appends into a fresh store, and no other
operation, `listAll` returns exactly those N records, none mutated or
dropped, in append order. -/
theorem c8_listAll_in_order (recs : List InteractionRecord)
    (hvalid : ∀ r ∈ recs, r.response ≠ "") :
    listAll (recs.foldl (fun s r => ⟨historyAppend s.history r⟩) ⟨[]⟩) = recs ∧
    (listAll (recs.foldl (fun s r => ⟨historyAppend s.history r⟩) ⟨[]⟩)).length
      = recs.length := by
  have h := foldl_historyAppend recs ⟨[]⟩
  refine ⟨?_, ?_⟩ <;> simp [listAll, h]

/-- Witness for C8: the spec's scenario of two consecutive successful
generations. -/
theorem c8_listAll_in_order_witness :
    (∀ r ∈ ([⟨"t1", "agreement one"⟩, ⟨"t2", "agreement two"⟩] :
        List InteractionRecord), r.response ≠ "") ∧
    (listAll (([⟨"t1", "agreement one"⟩, ⟨"t2", "agreement two"⟩] :
          List InteractionRecord).foldl
        (fun s r => ⟨historyAppend s.history r⟩) ⟨[]⟩)
      = [⟨"t1", "agreement one"⟩, ⟨"t2", "agreement two"⟩] ∧
     (listAll (([⟨"t1", "agreement one"⟩, ⟨"t2", "agreement two"⟩] :
           List InteractionRecord).foldl
         (fun s r => ⟨historyAppend s.history r⟩) ⟨[]⟩)).length = 2) :=
  ⟨by decide,
    c8_listAll_in_order [⟨"t1", "agreement one"⟩, ⟨"t2", "agreement two"⟩]
      (by decide)⟩

/-- Claim C9: the tab-2 decode runs outside every try/except, so an accepted
upload whose bytes are not valid UTF-8 raises an uncaught
`UnicodeDecodeError` — whatever the state and pending action, the flow errors
before any analysis, display, or history append. -/
theorem c9_decode_uncaught :
    acceptedUpload binaryPdfUpload = true ∧
    ∀ s action, tab2Flow s binaryPdfUpload action = .error "UnicodeDecodeError" :=
  ⟨by decide, fun _ _ => rfl⟩

/-- Claim C10: every completion request fixes temperature 0.7 and max_tokens
1024; generate and insights use model `deepseek/deepseek-r1`, analyze uses
`deepseek/deepseek-chat`. -/
theorem c10_fixed_request_parameters
    (language compliance user_prompt extracted_text : String) :
    (generateRequest language compliance user_prompt).temperature = 7/10 ∧
    (generateRequest language compliance user_prompt).max_tokens = 1024 ∧
    (generateRequest language compliance user_prompt).model = "deepseek/deepseek-r1" ∧
    (analyzeRequest extracted_text).temperature = 7/10 ∧
    (analyzeRequest extracted_text).max_tokens = 1024 ∧
    (analyzeRequest extracted_text).model = "deepseek/deepseek-chat" ∧
    (insightsRequest extracted_text).temperature = 7/10 ∧
    (insightsRequest extracted_text).max_tokens = 1024 ∧
    (insightsRequest extracted_text).model = "deepseek/deepseek-r1" :=
  ⟨rfl, rfl, rfl, rfl, rfl, rfl, rfl, rfl, rfl⟩

end DeepConsent
